import Mathlib

/-!
Verification development for the Lakebridge portal app (src/app.py).

The application is a single Streamlit script.  We give a shallow embedding
of its state and of each button handler as a pure function of the session
state plus an oracle for the external world (the HTTP backend and the
hosted text-generation service), and prove the specified properties about
those functions.
-/

namespace Lakebridge

/-! ## Validation Reporter (`llm_validate`, src/app.py lines 85-134) -/

/-- Python string slicing `s[:n]`: the first `n` characters of `s`. -/
def pyTake (n : Nat) (s : String) : String :=
  String.mk (s.data.take n)

/-- Python `pat in hay` on the character list of a string:
`containsSub pat hay = true` iff `pat` occurs contiguously in `hay`. -/
def containsSub (pat : List Char) : List Char → Bool
  | [] => pat.isEmpty
  | c :: rest => pat.isPrefixOf (c :: rest) || containsSub pat rest

/-- `"pat" in hay` for strings. -/
def strContains (hay pat : String) : Bool :=
  containsSub pat.data hay.data

/-- Decoding parameters of the `client.text_generation(...)` call
(src/app.py lines 117-122).  The sampling temperature 0.3 is recorded
exactly as tenths to stay off floating point. -/
structure GenParams where
  model : String
  max_new_tokens : Nat
  temperature_tenths : Nat

/-- The fixed decoding parameters used by `llm_validate`:
model `HuggingFaceH4/zephyr-7b-beta`, `max_new_tokens=800`, `temperature=0.3`. -/
def genParams : GenParams :=
  { model := "HuggingFaceH4/zephyr-7b-beta", max_new_tokens := 800, temperature_tenths := 3 }

/-- The environment `llm_validate` runs in: the `HUGGINGFACE_API_KEY`
variable (`none` when absent) and the external text-generation service,
an opaque call that either returns a response string or raises an
exception carried as its message string. -/
structure Env where
  hf_token : Option String
  text_generation : String → GenParams → Except String String

/-- Python truthiness test `not hf_token` on the result of `os.getenv`:
true for an absent variable and for the empty string. -/
def tokenFalsy : Option String → Bool
  | none => true
  | some s => s.isEmpty

/-- Text of the prompt template before the first embedded document
(src/app.py lines 93-106). -/
def promptHead : String :=
  "\nYou are a senior ETL migration validator specializing in Informatica-to-Databricks conversions.\nValidate whether the PySpark code below fully replicates the logic in the Informatica XML.\n\nCompare:\n• Source & Target mapping alignment\n• Transformations (lookup, expression, router, filters, joins)\n• Load strategy (insert/update/merge)\n• Parameter & variable usage\n\nIdentify any missing or mismatched logic and summarize in markdown.\n\n--- Informatica XML (truncated) ---\n"

/-- Text of the prompt template between the two embedded documents
(src/app.py lines 106-109). -/
def promptMid : String :=
  "\n\n--- PySpark Code (truncated) ---\n"

/-- Text of the prompt template after the second embedded document
(src/app.py lines 109-116). -/
def promptTail : String :=
  "\n\nReturn sections:\n1️⃣ ETL Summary\n2️⃣ Key Matching Transformations\n3️⃣ Missing / Deviated Logic\n4️⃣ Final Verdict (Pass/Fail)\n"

/-- The f-string prompt of `llm_validate` (src/app.py lines 93-116):
the fixed template with `xml_text[:4000]` and `pyspark_text[:4000]`
interpolated. -/
def validationPrompt (xml_text pyspark_text : String) : String :=
  promptHead ++ pyTake 4000 xml_text ++ promptMid ++ pyTake 4000 pyspark_text ++ promptTail

/-- Message of the `ValueError` raised when no Hugging Face token is set
(src/app.py line 90). -/
def noKeyMsg : String :=
  "No Hugging Face API key found. Running mock mode."

/-- The fixed mock report returned when the exception message mentions a
missing API key (src/app.py lines 127-133). -/
def mockReport : String :=
  "🧠 Mock Validation Mode (no HF token)\n\n✅ ETL Summary: The job reads source(s), applies transformations, and loads target(s).\n✅ Matching: Key logic appears to align.\nNo critical mismatches detected.\n⚠️ Set HUGGINGFACE_API_KEY for real validation."

/-- `llm_validate(xml_text, pyspark_text)` (src/app.py lines 85-134).
The whole body sits in a `try` whose `except Exception` converts any
exception into a report string, so the embedding is a total function:
the `try` body is an `Except` value and the handler inspects the message. -/
def llm_validate (env : Env) (xml_text pyspark_text : String) : String :=
  let body : Except String String :=
    if tokenFalsy env.hf_token then
      Except.error noKeyMsg
    else
      env.text_generation (validationPrompt xml_text pyspark_text) genParams
  match body with
  | Except.ok response => response
  | Except.error e =>
      if strContains e "No Hugging Face API key" then mockReport
      else "❌ Error during LLM validation: " ++ e

/-! ## Workspace folders (src/app.py lines 47-51)

`base_dir = Path(__file__).parent / "bridge"`, `input_root = base_dir / "input"`,
`tmp_root = base_dir / "tmp"`, each made with `mkdir(parents=True, exist_ok=True)`.
Paths are modelled as absolute component lists; the directory containing
`app.py` is a parameter `appDir`. -/

/-- The `input_root` workspace directory, as components:
`Path(__file__).parent / "bridge" / "input"` (src/app.py lines 47-48).
The second argument is the wall-clock timestamp at the time of the call;
the code derives the directory from `__file__` only, so the timestamp is
unused. -/
def run_workspace_dir (appDir : List String) (_timestamp : Nat) : List String :=
  appDir ++ ["bridge", "input"]

/-- The `tmp_root` staging directory `base_dir / "tmp"` (src/app.py line 49). -/
def tmp_root_dir (appDir : List String) : List String :=
  appDir ++ ["bridge", "tmp"]

/-- `Path.mkdir` on a set of existing directories (modelled as a list of
component paths): with `exist_ok=True` an existing directory is reused,
with `exist_ok=False` it raises `FileExistsError`. -/
def mkdir (exist_ok : Bool) (dirs : List (List String)) (d : List String) :
    Except String (List (List String)) :=
  if d ∈ dirs then
    if exist_ok then Except.ok dirs else Except.error "FileExistsError"
  else Except.ok (d :: dirs)

/-! ## Upload staging paths (src/app.py lines 152-158 and 205-210)

Both upload handlers compute `input_root / f.name` (resp. `tmp_root / new_xml.name`)
with the raw client-supplied file name. -/

/-- Split a character list at every `/`. -/
def splitSlash : List Char → List (List Char)
  | [] => [[]]
  | c :: rest =>
      let r := splitSlash rest
      if c = '/' then [] :: r
      else
        match r with
        | [] => [[c]]
        | h :: t => (c :: h) :: t

/-- Split a POSIX path string into components, dropping empty components
and `.` (what the operating system does when the path is resolved). -/
def splitPath (s : String) : List String :=
  ((splitSlash s.data).map String.mk).filter (fun c => c ≠ "" && c ≠ ".")

/-- Whether a path string is absolute (starts with `/`). -/
def isAbsoluteName (s : String) : Bool :=
  match s.data with
  | c :: _ => c = '/'
  | [] => false

/-- pathlib `/` join of a directory (given as absolute components) with a
string operand: an absolute right operand replaces the left side, as
`PurePath.joinpath` does. -/
def joinPath (base : List String) (name : String) : List String :=
  if isAbsoluteName name then splitPath name else base ++ splitPath name

/-- Resolve `..` components the way the file system does when the path is
opened (at the root, `..` stays at the root). -/
def resolvePath (cs : List String) : List String :=
  cs.foldl (fun acc c => if c = ".." then acc.dropLast else acc ++ [c]) []

/-- The path the analyzer upload handler writes to:
`p = input_root / f.name` with the uploaded file's raw name
(src/app.py line 155). -/
def stagedPath (appDir : List String) (name : String) : List String :=
  joinPath (appDir ++ ["bridge", "input"]) name

/-- Whether a written path, once resolved, still lies inside the
workspace directory `appDir/bridge/input`. -/
def withinWorkspace (appDir : List String) (p : List String) : Bool :=
  (appDir ++ ["bridge", "input"]).isPrefixOf (resolvePath p)

/-! ## Staging file writes (src/app.py lines 156-157)

`with open(p, "wb") as out: out.write(f.read())` — the uploaded bytes are
written verbatim, truncating any existing file.  The file system is a map
from path strings to byte lists. -/

/-- File contents store: path → bytes. -/
def FS : Type := String → Option (List Nat)

/-- `stage_upload`: write `content` verbatim to `root ++ "/" ++ filename`
(mode `"wb"`: any existing file of that name is overwritten), returning
the updated file system and the resulting path (src/app.py lines 155-158). -/
def stage_upload (fs : FS) (root filename : String) (content : List Nat) : FS × String :=
  let p := root ++ "/" ++ filename
  (fun q => if q = p then some content else fs q, p)

/-- Reading a path back from the file system. -/
def readFile (fs : FS) (p : String) : Option (List Nat) :=
  fs p

/-! ## Analyzer tab (src/app.py lines 144-186) -/

/-- An uploaded file as the handler sees it: client-supplied name and bytes. -/
structure UploadedFile where
  name : String
  content : List Nat

/-- The analyzer upload widget handler (src/app.py lines 152-158): when the
uploader returns a non-empty list (`if uploaded:`), the session list
`uploaded_analyzer_paths` is reset to `[]` and the path of each newly
written file is appended; with no files the widget is falsy and the state
is untouched. -/
def uploadAnalyzerFiles (old_paths : List String) (input_root : String)
    (files : List UploadedFile) : List String :=
  if files.isEmpty then old_paths
  else files.foldl (fun acc f => acc ++ [input_root ++ "/" ++ f.name]) []

/-- The backend JSON body for `/run_analyzer` as the handler reads it:
`status` via `res.get("status")`, `report_file` via `res["report_file"]`
(absent → `KeyError`), `message` via `res.get("message", ...)`. -/
structure AnalyzerResponse where
  status_code : Nat
  json_status : String
  report_file : Option String
  message : Option String
  text : String

/-- What the analyzer button press does, observably: the new value of
`st.session_state.last_analyzer_report`, whether an HTTP request to the
backend was issued, and the message shown. -/
structure AnalyzeOutcome where
  last_analyzer_report : Option String
  madeCall : Bool
  ui : String

/-- The `Run Analyzer on VM` button handler (src/app.py lines 161-186).
The backend interaction is an oracle: `Except.error e` is an exception
raised inside the `try` (caught at line 185), `Except.ok r` a received
response.  `last_analyzer_report` is assigned only inside the
`status == "success"` branch; a missing `report_file` key raises before
the assignment. -/
def runAnalyzerClick (paths : List String) (last_report : Option String)
    (backend : Except String AnalyzerResponse) : AnalyzeOutcome :=
  if paths.isEmpty then
    { last_analyzer_report := last_report, madeCall := false,
      ui := "Please upload at least one XML file first." }
  else
    match backend with
    | Except.error e =>
        { last_analyzer_report := last_report, madeCall := true,
          ui := "Request failed: " ++ e }
    | Except.ok r =>
        if r.status_code = 200 then
          if r.json_status = "success" then
            match r.report_file with
            | some f =>
                { last_analyzer_report := some f, madeCall := true,
                  ui := "✅ Analyzer completed successfully!" }
            | none =>
                { last_analyzer_report := last_report, madeCall := true,
                  ui := "Request failed: KeyError: report_file" }
          else
            { last_analyzer_report := last_report, madeCall := true,
              ui := r.message.getD "Analyzer failed" }
        else
          { last_analyzer_report := last_report, madeCall := true,
            ui := "Server error: " ++ r.text }

/-! ## Transpiler tab (src/app.py lines 191-247) -/

/-- The radio selection for the transpiler input
(src/app.py lines 198-201). -/
inductive TranspileMode where
  | useLast
  | uploadNew

/-- The backend JSON body for `/run_transpiler` as the handler reads it. -/
structure TranspilerResponse where
  status_code : Nat
  json_status : String
  output_folder : Option String
  files : List String
  message : Option String
  text : String

/-- What the transpiler button press does, observably. -/
structure TranspileOutcome where
  last_transpiler_output : Option String
  madeCall : Bool
  ui : String

/-- The `Run Transpiler on VM` button handler (src/app.py lines 213-247).
`new_xml_path` is the freshly staged file when the `Upload a new XML here`
mode has received one; `staged` is the content of the local workspace —
the handler never consults it: in `useLast` mode it posts with no file
and the backend picks its own latest input
(comment at src/app.py line 224). -/
def runTranspilerClick (mode : TranspileMode) (new_xml_path : Option String)
    (staged : List String) (last_output : Option String)
    (backend : Except String TranspilerResponse) : TranspileOutcome :=
  match mode, new_xml_path with
  | TranspileMode.uploadNew, none =>
      { last_transpiler_output := last_output, madeCall := false,
        ui := "Please upload an XML first." }
  | _, _ =>
      let _ := staged
      match backend with
      | Except.error e =>
          { last_transpiler_output := last_output, madeCall := true,
            ui := "Request failed: " ++ e }
      | Except.ok r =>
          if r.status_code = 200 then
            if r.json_status = "success" then
              match r.output_folder with
              | some d =>
                  { last_transpiler_output := some d, madeCall := true,
                    ui := "✅ Transpiler completed successfully!" }
              | none =>
                  { last_transpiler_output := last_output, madeCall := true,
                    ui := "Request failed: KeyError: output_folder" }
            else
              { last_transpiler_output := last_output, madeCall := true,
                ui := r.message.getD "Transpiler failed" }
          else
            { last_transpiler_output := last_output, madeCall := true,
              ui := "Server error: " ++ r.text }

/-! ## Concrete instances used in closed statements -/

/-- An environment with a token where the service answers with the empty
string. -/
def envEmptyResp : Env :=
  { hf_token := some "k", text_generation := fun _ _ => Except.ok "" }

/-- An environment with no token configured. -/
def envNoToken : Env :=
  { hf_token := none, text_generation := fun _ _ => Except.error "unreachable" }

/-- An environment with a token and a service answering a fixed report. -/
def envWithToken : Env :=
  { hf_token := some "tok", text_generation := fun _ _ => Except.ok "verdict: Pass" }

/-- A successful transpiler backend response. -/
def tResp : TranspilerResponse :=
  { status_code := 200, json_status := "success", output_folder := some "out",
    files := [], message := none, text := "" }

/-- A concrete upload batch. -/
def witnessFiles : List UploadedFile :=
  [{ name := "a.xml", content := [60, 47, 62] }, { name := "b.xml", content := [] }]

/-! ## Helper lemmas -/

/-- The `ValueError` message raised on a missing token does contain the
substring the handler tests for. -/
theorem noKeyMsg_contains :
    strContains noKeyMsg "No Hugging Face API key" = true := by decide

/-- The fixed mock report is non-empty. -/
theorem mockReport_ne_empty : mockReport ≠ "" := by decide

/-- A report beginning with the error-path marker is non-empty. -/
theorem error_report_ne_empty (e : String) :
    "❌ Error during LLM validation: " ++ e ≠ "" := by
  intro hc
  have := congrArg String.length hc
  simp [String.length_append] at this
  exact absurd this.1 (by decide)

/-- A non-empty string is not `isEmpty`. -/
theorem isEmpty_false_of_ne (s : String) (h : s ≠ "") : s.isEmpty = false := by
  cases hs : s.isEmpty
  · rfl
  · exact absurd ((String.isEmpty_iff s).mp hs) h

/-- Evaluating `llm_validate` when the configured token is falsy. -/
theorem llm_validate_falsy (env : Env) (x p : String)
    (h : tokenFalsy env.hf_token = true) :
    llm_validate env x p = mockReport := by
  unfold llm_validate
  simp [h, noKeyMsg_contains]

/-- Evaluating `llm_validate` when the token is set and the service call
returns a response. -/
theorem llm_validate_ok (env : Env) (x p r : String)
    (h : tokenFalsy env.hf_token = false)
    (hsvc : env.text_generation (validationPrompt x p) genParams = Except.ok r) :
    llm_validate env x p = r := by
  unfold llm_validate
  simp [h, hsvc]

/-- Evaluating `llm_validate` when the token is set and the service call
raises. -/
theorem llm_validate_err (env : Env) (x p e : String)
    (h : tokenFalsy env.hf_token = false)
    (hsvc : env.text_generation (validationPrompt x p) genParams = Except.error e) :
    llm_validate env x p =
      if strContains e "No Hugging Face API key" then mockReport
      else "❌ Error during LLM validation: " ++ e := by
  unfold llm_validate
  simp [h, hsvc]

/-- A `foldl` that appends one element per step builds `acc ++ map`. -/
theorem foldl_push_eq_map {α β : Type} (g : α → β) :
    ∀ (l : List α) (acc : List β),
      l.foldl (fun a f => a ++ [g f]) acc = acc ++ l.map g
  | [], acc => by simp
  | f :: rest, acc => by
      simp [List.foldl_cons, foldl_push_eq_map g rest]

/-! ## Claim theorems -/

/-- Claim C1 counterexample: with a token configured and a service whose
response is the empty string, `llm_validate` returns the empty string —
the report is not always non-empty, because a successful service response
is returned verbatim. -/
theorem llm_validate_empty_report :
    llm_validate envEmptyResp "" "" = "" := rfl

/-- Claim C1 (amended): `llm_validate` never propagates an exception —
every internal failure is converted to a textual report, so it is a total
function of its inputs and environment — and the returned report is
non-empty in every case except when the credential is present and the
text-generation service itself returned the empty string, which is passed
through verbatim. -/
theorem llm_validate_never_raises_nonempty (env : Env) (x p : String) :
    llm_validate env x p ≠ "" ∨
      env.text_generation (validationPrompt x p) genParams = Except.ok "" := by
  cases htok : tokenFalsy env.hf_token
  · cases hsvc : env.text_generation (validationPrompt x p) genParams with
    | ok r =>
        by_cases hr : r = ""
        · exact Or.inr (by rw [hr])
        · exact Or.inl ((llm_validate_ok env x p r htok hsvc) ▸ hr)
    | error e =>
        left
        rw [llm_validate_err env x p e htok hsvc]
        by_cases hc : strContains e "No Hugging Face API key" = true
        · simpa [hc] using mockReport_ne_empty
        · simp only [Bool.not_eq_true] at hc
          simpa [hc] using error_report_ne_empty e
  · exact Or.inl ((llm_validate_falsy env x p htok) ▸ mockReport_ne_empty)

/-- Claim C2: when `HUGGINGFACE_API_KEY` is absent, `llm_validate` returns
the one fixed mock report, independent of both input strings: any two
runs produce the identical text. -/
theorem llm_validate_mock_no_token (env : Env) (x1 p1 x2 p2 : String)
    (h : env.hf_token = none) :
    llm_validate env x1 p1 = mockReport ∧
      llm_validate env x1 p1 = llm_validate env x2 p2 := by
  have hfalsy : tokenFalsy env.hf_token = true := by rw [h]; rfl
  refine ⟨llm_validate_falsy env x1 p1 hfalsy, ?_⟩
  rw [llm_validate_falsy env x1 p1 hfalsy, llm_validate_falsy env x2 p2 hfalsy]

/-- Witness for claim C2 at a concrete environment and concrete inputs. -/
theorem llm_validate_mock_no_token_witness :
    llm_validate envNoToken "<xml/>" "df = spark" = mockReport ∧
      llm_validate envNoToken "<xml/>" "df = spark" = llm_validate envNoToken "" "other" :=
  llm_validate_mock_no_token envNoToken "<xml/>" "df = spark" "" "other" rfl

/-- Claim C7: with a credential present, `llm_validate` builds the fixed
template prompt embedding the first 4000 characters of each document (at
most 4000 each), invokes the service with the fixed decoding parameters
(model `HuggingFaceH4/zephyr-7b-beta`, `max_new_tokens = 800`,
`temperature = 0.3`), and returns the service response verbatim. -/
theorem llm_validate_token_verbatim (env : Env) (t x p r : String)
    (htok : env.hf_token = some t) (hne : t ≠ "")
    (hsvc : env.text_generation (validationPrompt x p) genParams = Except.ok r) :
    llm_validate env x p = r ∧
      validationPrompt x p =
        promptHead ++ pyTake 4000 x ++ promptMid ++ pyTake 4000 p ++ promptTail ∧
      pyTake 4000 x = String.mk (x.data.take 4000) ∧
      (pyTake 4000 x).length ≤ 4000 ∧ (pyTake 4000 p).length ≤ 4000 ∧
      genParams.model = "HuggingFaceH4/zephyr-7b-beta" ∧
      genParams.max_new_tokens = 800 ∧ genParams.temperature_tenths = 3 := by
  have hfalsy : tokenFalsy env.hf_token = false := by
    rw [htok]; exact isEmpty_false_of_ne t hne
  refine ⟨llm_validate_ok env x p r hfalsy hsvc, rfl, rfl, ?_, ?_, rfl, rfl, rfl⟩
  · show (x.data.take 4000).length ≤ 4000
    simp [List.length_take]
  · show (p.data.take 4000).length ≤ 4000
    simp [List.length_take]

/-- Witness for claim C7 at a concrete environment and concrete inputs. -/
theorem llm_validate_token_verbatim_witness :
    llm_validate envWithToken "<a/>" "print(1)" = "verdict: Pass" ∧
      validationPrompt "<a/>" "print(1)" =
        promptHead ++ pyTake 4000 "<a/>" ++ promptMid ++ pyTake 4000 "print(1)" ++ promptTail ∧
      pyTake 4000 "<a/>" = String.mk ("<a/>".data.take 4000) ∧
      (pyTake 4000 "<a/>").length ≤ 4000 ∧ (pyTake 4000 "print(1)").length ≤ 4000 ∧
      genParams.model = "HuggingFaceH4/zephyr-7b-beta" ∧
      genParams.max_new_tokens = 800 ∧ genParams.temperature_tenths = 3 :=
  llm_validate_token_verbatim envWithToken "tok" "<a/>" "print(1)" "verdict: Pass"
    rfl (by decide) rfl

/-- Claim C3: the upload staging step does NOT sanitize the client
file name — `p = input_root / f.name` joins the raw name — so a name
carrying `..` components makes the written path resolve outside the
workspace: with the app at `/home/app`, uploading a file named
`../../etc/passwd` writes to `/home/app/etc/passwd`, not under
`/home/app/bridge/input`. -/
theorem stagedPath_escapes_workspace :
    withinWorkspace ["home", "app"] (stagedPath ["home", "app"] "../../etc/passwd") = false ∧
      resolvePath (stagedPath ["home", "app"] "../../etc/passwd") =
        ["home", "app", "etc", "passwd"] := by decide

/-- Claim C4: pressing `Run Analyzer on VM` with no staged upload shows
the invalid-state warning, issues no HTTP request to the backend, and
leaves `last_analyzer_report` unchanged, whatever the backend would have
answered. -/
theorem runAnalyzerClick_empty_no_call (paths : List String)
    (last_report : Option String) (backend : Except String AnalyzerResponse)
    (h : paths = []) :
    (runAnalyzerClick paths last_report backend).madeCall = false ∧
      (runAnalyzerClick paths last_report backend).ui =
        "Please upload at least one XML file first." ∧
      (runAnalyzerClick paths last_report backend).last_analyzer_report = last_report := by
  subst h
  exact ⟨rfl, rfl, rfl⟩

/-- Witness for claim C4 at a concrete state and backend oracle. -/
theorem runAnalyzerClick_empty_no_call_witness :
    (runAnalyzerClick [] (some "old.xlsx") (Except.error "refused")).madeCall = false ∧
      (runAnalyzerClick [] (some "old.xlsx") (Except.error "refused")).ui =
        "Please upload at least one XML file first." ∧
      (runAnalyzerClick [] (some "old.xlsx") (Except.error "refused")).last_analyzer_report =
        some "old.xlsx" :=
  runAnalyzerClick_empty_no_call [] (some "old.xlsx") (Except.error "refused") rfl

/-- Claim C5 counterexample: in `Use last Analyzer upload` mode with no
fresh file and an empty workspace, the button handler still issues the
external call (the request is forwarded to the backend unconditionally) —
it does not fail locally with an invalid-state result. -/
theorem runTranspilerClick_empty_still_calls :
    (runTranspilerClick TranspileMode.useLast none [] none (Except.ok tResp)).madeCall = true ∧
      (runTranspilerClick TranspileMode.useLast none [] none (Except.ok tResp)).ui =
        "✅ Transpiler completed successfully!" := by decide

/-- Claim C5 (amended): only in `Upload a new XML here` mode does the
handler check its input: with no fresh file staged it warns
(`Please upload an XML first.`), stops, performs no external call, and
leaves the last output unchanged; in `Use last Analyzer upload` mode the
request is always sent and the backend resolves the input server-side. -/
theorem runTranspilerClick_uploadNew_no_file (mode : TranspileMode)
    (fresh : Option String) (staged : List String) (last_output : Option String)
    (backend : Except String TranspilerResponse)
    (hm : mode = TranspileMode.uploadNew) (hf : fresh = none) :
    (runTranspilerClick mode fresh staged last_output backend).madeCall = false ∧
      (runTranspilerClick mode fresh staged last_output backend).ui =
        "Please upload an XML first." ∧
      (runTranspilerClick mode fresh staged last_output backend).last_transpiler_output =
        last_output := by
  subst hm; subst hf
  exact ⟨rfl, rfl, rfl⟩

/-- Witness for the amended claim C5 at a concrete state and oracle. -/
theorem runTranspilerClick_uploadNew_no_file_witness :
    (runTranspilerClick TranspileMode.uploadNew none [] (some "prev")
        (Except.ok tResp)).madeCall = false ∧
      (runTranspilerClick TranspileMode.uploadNew none [] (some "prev")
          (Except.ok tResp)).ui = "Please upload an XML first." ∧
      (runTranspilerClick TranspileMode.uploadNew none [] (some "prev")
          (Except.ok tResp)).last_transpiler_output = some "prev" :=
  runTranspilerClick_uploadNew_no_file TranspileMode.uploadNew none [] (some "prev")
    (Except.ok tResp) rfl rfl

/-- Claim C6 counterexample: the workspace directory is identical for two
distinct wall-clock timestamps — the code at src/app.py lines 47-51 names
it from `__file__` alone (`bridge/input`), not from the current
timestamp, so distinct runs do not get distinct directories. -/
theorem run_workspace_dir_ignores_timestamp :
    run_workspace_dir ["home", "app"] 0 = run_workspace_dir ["home", "app"] 1 ∧
      (0 : Nat) ≠ 1 := by decide

/-- Claim C6 (amended): obtaining the run workspace is idempotent within a
session — any two calls return the same fixed directory path
`appDir/bridge/input`, whatever the timestamps — and the directory is
created with `exist_ok=True`: when it already exists it is reused without
error, and creating it again changes nothing. -/
theorem workspace_setup_idempotent (appDir : List String) (t1 t2 : Nat)
    (dirs : List (List String)) :
    run_workspace_dir appDir t1 = run_workspace_dir appDir t2 ∧
      ∃ dirs2, mkdir true dirs (run_workspace_dir appDir t1) = Except.ok dirs2 ∧
        run_workspace_dir appDir t1 ∈ dirs2 ∧
        mkdir true dirs2 (run_workspace_dir appDir t1) = Except.ok dirs2 := by
  refine ⟨rfl, ?_⟩
  by_cases h : run_workspace_dir appDir t1 ∈ dirs
  · exact ⟨dirs, by simp [mkdir, h], h, by simp [mkdir, h]⟩
  · refine ⟨run_workspace_dir appDir t1 :: dirs, by simp [mkdir, h], List.mem_cons_self _ _, ?_⟩
    simp [mkdir]

/-- Claim C8: staging an upload writes the bytes verbatim to
`input_root / filename` over whatever file system was there before
(so an existing file of the same name is overwritten), and reading the
returned path back yields byte-identical content. -/
theorem stage_upload_roundtrip (fs : FS) (root filename : String) (content : List Nat) :
    (stage_upload fs root filename content).2 = root ++ "/" ++ filename ∧
      readFile (stage_upload fs root filename content).1
        (stage_upload fs root filename content).2 = some content := by
  refine ⟨rfl, ?_⟩
  show (if root ++ "/" ++ filename = root ++ "/" ++ filename then some content
        else fs (root ++ "/" ++ filename)) = some content
  simp

/-- Claim C9: `st.session_state.last_analyzer_report` is a frame of every
analyze invocation that does not succeed: if the backend call raised, or
the HTTP status was not 200, or the JSON `status` field was not
`success`, the field keeps its previous value. -/
theorem last_report_frame (paths : List String) (last_report : Option String)
    (backend : Except String AnalyzerResponse)
    (h : ∀ r, backend = Except.ok r →
      ¬(r.status_code = 200 ∧ r.json_status = "success")) :
    (runAnalyzerClick paths last_report backend).last_analyzer_report = last_report := by
  unfold runAnalyzerClick
  by_cases hp : paths.isEmpty
  · simp [hp]
  · simp only [hp, if_false]
    cases backend with
    | error e => rfl
    | ok r =>
        have hr := h r rfl
        by_cases h200 : r.status_code = 200
        · have hsucc : ¬ r.json_status = "success" := fun hs => hr ⟨h200, hs⟩
          simp [h200, hsucc]
        · simp [h200]

/-- Witness for claim C9: a request that raises leaves the report as it
was. -/
theorem last_report_frame_witness :
    (runAnalyzerClick ["a.xml"] (some "keep.xlsx")
        (Except.error "connection refused")).last_analyzer_report = some "keep.xlsx" :=
  last_report_frame ["a.xml"] (some "keep.xlsx") (Except.error "connection refused")
    (fun _ hr => nomatch hr)

/-- Claim C10: a non-empty upload replaces `uploaded_analyzer_paths`
wholesale: the new list is exactly the paths of the newly uploaded files
in order — its length is the number of files uploaded, and no path from
any earlier upload action survives (the old list does not influence the
result at all). -/
theorem uploadAnalyzerFiles_replaces (old_paths : List String) (input_root : String)
    (files : List UploadedFile) (h : files ≠ []) :
    uploadAnalyzerFiles old_paths input_root files =
      files.map (fun f => input_root ++ "/" ++ f.name) ∧
      (uploadAnalyzerFiles old_paths input_root files).length = files.length ∧
      ∀ other_paths, uploadAnalyzerFiles old_paths input_root files =
        uploadAnalyzerFiles other_paths input_root files := by
  have hne : files.isEmpty = false := by
    cases files with
    | nil => exact absurd rfl h
    | cons f rest => rfl
  have key : uploadAnalyzerFiles old_paths input_root files =
      files.map (fun f => input_root ++ "/" ++ f.name) := by
    unfold uploadAnalyzerFiles
    rw [hne]
    simpa using foldl_push_eq_map (fun f => input_root ++ "/" ++ f.name) files []
  refine ⟨key, by rw [key]; exact List.length_map files _, fun other_paths => ?_⟩
  rw [key]
  unfold uploadAnalyzerFiles
  rw [hne]
  simpa using (foldl_push_eq_map (fun f => input_root ++ "/" ++ f.name) files []).symm

/-- Witness for claim C10 at a concrete old list and upload batch. -/
theorem uploadAnalyzerFiles_replaces_witness :
    uploadAnalyzerFiles ["stale1", "stale2"] "root" witnessFiles =
      witnessFiles.map (fun f => "root" ++ "/" ++ f.name) ∧
      (uploadAnalyzerFiles ["stale1", "stale2"] "root" witnessFiles).length =
        witnessFiles.length ∧
      ∀ other_paths, uploadAnalyzerFiles ["stale1", "stale2"] "root" witnessFiles =
        uploadAnalyzerFiles other_paths "root" witnessFiles :=
  uploadAnalyzerFiles_replaces ["stale1", "stale2"] "root" witnessFiles
    (List.cons_ne_nil _ _)

end Lakebridge
